import Mathlib

/-!
Verification model of the `SimpleActionServer` single-goal policy from
`src/actionlib/src/actionlib/simple_action_server.py`.

Goal handles are identified by a natural-number id.  Each handle carries a
timestamp and a status.  The `ServerState` record mirrors the attributes of
the `SimpleActionServer` class.  Goal slots hold `Option Nat`: `none` models
the default-constructed `ServerGoalHandle()` sentinel whose `get_goal()` is
`None`.  User goal/preempt callbacks are modelled by `Option Bool`: `none`
means no callback is registered, `some b` means a callback is registered and
raising an exception when invoked is modelled by `b = true` (the callbacks
are opaque to the server state).  Timestamps (`rospy` times) are modelled as
naturals with the same strict order used by the source.
-/

/-- Goal statuses used by the single-goal policy (spec section 3). -/
inductive GoalStatus
  | PENDING
  | ACTIVE
  | PREEMPTING
  | SUCCEEDED
  | ABORTED
  | PREEMPTED
  deriving DecidableEq, Repr

/-- Per-handle data: the timestamp of the goal id and the current status. -/
structure HandleInfo where
  stamp : Nat
  status : GoalStatus
  deriving DecidableEq, Repr

/-- The attributes of `SimpleActionServer` (constructor, lines 60-93), plus a
store of every handle the transport has created (`handles` and `ids`). -/
structure ServerState where
  handles : Nat → HandleInfo
  ids : List Nat
  current_goal : Option Nat
  next_goal : Option Nat
  new_goal : Bool
  preempt_request : Bool
  new_goal_preempt_request : Bool
  goal_callback : Option Bool
  preempt_callback : Option Bool
  execute_callback : Bool

/-- Modelled from the spec: status mutation on a `ServerGoalHandle`.  The
handle class is not under `src/`; per the spec (sections 3, 4.1, 4.3, 4.5 and
6) `set_canceled` assigns `PREEMPTED`, `set_succeeded` assigns `SUCCEEDED`,
`set_aborted` assigns `ABORTED`, `set_accepted` assigns `ACTIVE`, and a
status operation on the null handle is a logged safe no-op (section 7). -/
def setGoalStatus (s : ServerState) (slot : Option Nat) (st : GoalStatus) : ServerState :=
  match slot with
  | none => s
  | some i =>
      { s with handles := fun j => if j = i then ⟨(s.handles i).stamp, st⟩ else s.handles j }

/-- A status that counts as actively running (`ACTIVE` or `PREEMPTING`). -/
def runningStatus (st : GoalStatus) : Bool :=
  st == GoalStatus.ACTIVE || st == GoalStatus.PREEMPTING

/-- `is_active` (lines 158-167): `False` on the null handle, otherwise the
status test `status == ACTIVE or status == PREEMPTING`. -/
def is_active (s : ServerState) : Bool :=
  match s.current_goal with
  | none => false
  | some c => runningStatus (s.handles c).status

/-- `is_new_goal_available` (lines 143-148). -/
def is_new_goal_available (s : ServerState) : Bool :=
  s.new_goal

/-- `is_preempt_requested` (lines 151-156). -/
def is_preempt_requested (s : ServerState) : Bool :=
  s.preempt_request

/-- `set_succeeded` (lines 169-177): `self.current_goal.set_succeeded(result)`. -/
def set_succeeded (s : ServerState) : ServerState :=
  setGoalStatus s s.current_goal GoalStatus.SUCCEEDED

/-- `set_aborted` (lines 179-187): `self.current_goal.set_aborted(result)`. -/
def set_aborted (s : ServerState) : ServerState :=
  setGoalStatus s s.current_goal GoalStatus.ABORTED

/-- `set_preempted` (lines 200-209): `self.current_goal.set_canceled(result)`. -/
def set_preempted (s : ServerState) : ServerState :=
  setGoalStatus s s.current_goal GoalStatus.PREEMPTED

/-- `register_goal_callback` (lines 211-219): refused when an execute
callback exists. -/
def register_goal_callback (s : ServerState) (raises : Bool) : ServerState :=
  if s.execute_callback then s else { s with goal_callback := some raises }

/-- `register_preempt_callback` (lines 221-226). -/
def register_preempt_callback (s : ServerState) (raises : Bool) : ServerState :=
  { s with preempt_callback := some raises }

/-- Result of `accept_new_goal`: the new state, the returned goal
(`None` on failure) and whether the error log on line 120 fired. -/
structure AcceptResult where
  state : ServerState
  ret : Option Nat
  loggedErr : Bool

/-- `accept_new_goal` (lines 105-140), translated clause by clause:
the availability check (lines 119-121), the cancel of a still-active
distinct current goal (lines 124-125), the promotion and flag propagation
(lines 130-135), `set_accepted` (line 138) and the return (line 140). -/
def accept_new_goal (s : ServerState) : AcceptResult :=
  if ¬ s.new_goal ∨ s.next_goal = none then
    { state := s, ret := none, loggedErr := true }
  else
    let s1 :=
      if is_active s ∧ s.current_goal.isSome ∧ s.current_goal ≠ s.next_goal then
        setGoalStatus s s.current_goal GoalStatus.PREEMPTED
      else s
    let s2 := { s1 with
      current_goal := s1.next_goal
      new_goal := false
      preempt_request := s1.new_goal_preempt_request
      new_goal_preempt_request := false }
    let s3 := setGoalStatus s2 s2.current_goal GoalStatus.ACTIVE
    { state := s3, ret := s3.current_goal, loggedErr := false }

/-- The transport hands `internal_goal_callback` a freshly created handle:
register it in the store with status `PENDING`. -/
def submittedState (s : ServerState) (gid stamp : Nat) : ServerState :=
  { s with
    ids := gid :: s.ids
    handles := fun j => if j = gid then ⟨stamp, GoalStatus.PENDING⟩ else s.handles j }

/-- One conjunct of the timestamp check on lines 246-247:
`not slot.get_goal() or stamp > slot.get_goal_id().stamp`. -/
def slotStampOlder (s : ServerState) (slot : Option Nat) (stamp : Nat) : Bool :=
  match slot with
  | none => true
  | some c => decide ((s.handles c).stamp < stamp)

/-- Result of `internal_goal_callback`: the new state, which user callbacks
were invoked, whether an exception escaped the function, and whether
`execute_condition` was released before returning. -/
structure GoalCbResult where
  state : ServerState
  calledPreemptCb : Bool
  calledGoalCb : Bool
  raised : Bool
  lockReleased : Bool

/-- Lines 249-254 of `internal_goal_callback`: starting from the state with
the submitted handle registered, bump (cancel) the previous next goal when it
is distinct from the current goal, install the submission as next, set
`new_goal` and clear `new_goal_preempt_request`. -/
def goalCbBase (s : ServerState) (gid stamp : Nat) : ServerState :=
  let s0 := submittedState s gid stamp
  let s1 :=
    if s0.next_goal.isSome ∧ (s0.current_goal = none ∨ s0.next_goal ≠ s0.current_goal) then
      setGoalStatus s0 s0.next_goal GoalStatus.PREEMPTED
    else s0
  { s1 with
    next_goal := some gid
    new_goal := true
    new_goal_preempt_request := false }

/-- `internal_goal_callback` (lines 236-276).  The admission branch bumps a
distinct previous next goal and installs the submission (lines 249-254,
factored as `goalCbBase`), preempts an active current goal and invokes the
preempt callback (lines 257-261), invokes the goal callback (lines 264-265)
and releases the lock (line 269); the rejection branch cancels the
submission and releases (lines 272-273).  A user callback that raises
transfers control to the handler on line 274, which is `except e:` with `e`
unbound: looking up `e` itself raises `NameError`, so the log and the
release on lines 275-276 never run, the lock stays held and an exception
escapes.  That flow is modelled by `raised := true, lockReleased :=
false`. -/
def internal_goal_callback (s : ServerState) (gid stamp : Nat) : GoalCbResult :=
  let s0 := submittedState s gid stamp
  if slotStampOlder s0 s0.current_goal stamp && slotStampOlder s0 s0.next_goal stamp then
    let s2 := goalCbBase s gid stamp
    let act := is_active s2
    let s3 := if act then { s2 with preempt_request := true } else s2
    if act ∧ s2.preempt_callback = some true then
      { state := s3, calledPreemptCb := true, calledGoalCb := false,
        raised := true, lockReleased := false }
    else if s2.goal_callback = some true then
      { state := s3, calledPreemptCb := act && s2.preempt_callback.isSome,
        calledGoalCb := true, raised := true, lockReleased := false }
    else
      { state := s3, calledPreemptCb := act && s2.preempt_callback.isSome,
        calledGoalCb := s2.goal_callback.isSome, raised := false, lockReleased := true }
  else
    { state := setGoalStatus s0 (some gid) GoalStatus.PREEMPTED,
      calledPreemptCb := false, calledGoalCb := false,
      raised := false, lockReleased := true }

/-- Result of `internal_preempt_callback`: the new state and whether the
registered preempt callback was invoked. -/
structure PreemptCbResult where
  state : ServerState
  calledPreemptCb : Bool

/-- `internal_preempt_callback` (lines 278-296).  Handle equality
(`preempt == self.current_goal`) is modelled from the spec as identity of
goal ids, never matching a null slot. -/
def internal_preempt_callback (s : ServerState) (tok : Nat) : PreemptCbResult :=
  if s.current_goal = some tok then
    { state := { s with preempt_request := true },
      calledPreemptCb := s.preempt_callback.isSome }
  else if s.next_goal = some tok then
    { state := { s with new_goal_preempt_request := true }, calledPreemptCb := false }
  else
    { state := s, calledPreemptCb := false }

/-- Outcome of one `executeLoop` iteration: the error returns on lines
314-315 and 319-320, or a normal iteration recording whether the execute
callback ran and whether the post-callback warning on lines 327-331 fired. -/
inductive LoopStep
  | fatalActive
  | fatalNoExecuteCb
  | normal (ran warned : Bool)
  deriving DecidableEq, Repr

/-- One iteration of `executeLoop` (lines 304-333), with the user execute
callback modelled as a state transformer `ec` (it may call the status
API on the server). -/
def executeLoopIter (s : ServerState) (ec : ServerState → ServerState) :
    ServerState × LoopStep :=
  if is_active s then (s, LoopStep.fatalActive)
  else if is_new_goal_available s then
    let a := accept_new_goal s
    if ¬ a.state.execute_callback then (a.state, LoopStep.fatalNoExecuteCb)
    else
      let s2 := ec a.state
      if is_active s2 then (set_aborted s2, LoopStep.normal true true)
      else (s2, LoopStep.normal true false)
  else
    if is_active s then (set_aborted s, LoopStep.normal false true)
    else (s, LoopStep.normal false false)

/-- Constructor state (lines 60-93): empty slots, all flags `False`, no
goal/preempt callback registered yet. -/
def initServer (execute_cb : Bool) : ServerState :=
  { handles := fun _ => ⟨0, GoalStatus.PENDING⟩
    ids := []
    current_goal := none
    next_goal := none
    new_goal := false
    preempt_request := false
    new_goal_preempt_request := false
    goal_callback := none
    preempt_callback := none
    execute_callback := execute_cb }

/-- The operations a client or the execution loop can perform on the
server state. -/
inductive ServerOp
  | submit (gid stamp : Nat)
  | preempt (tok : Nat)
  | accept
  | succeed
  | abort
  | cancelCur
  | regGoal (raises : Bool)
  | regPreempt (raises : Bool)
  deriving DecidableEq, Repr

/-- Apply one operation to the server state. -/
def stepOp (s : ServerState) : ServerOp → ServerState
  | ServerOp.submit gid stamp => (internal_goal_callback s gid stamp).state
  | ServerOp.preempt tok => (internal_preempt_callback s tok).state
  | ServerOp.accept => (accept_new_goal s).state
  | ServerOp.succeed => set_succeeded s
  | ServerOp.abort => set_aborted s
  | ServerOp.cancelCur => set_preempted s
  | ServerOp.regGoal b => register_goal_callback s b
  | ServerOp.regPreempt b => register_preempt_callback s b

/-- Run a sequence of operations from a state. -/
def runOps (s : ServerState) (ops : List ServerOp) : ServerState :=
  ops.foldl stepOp s

/-- The goal ids submitted along a trace (the transport assigns a fresh id
to every submission). -/
def goalIds : List ServerOp → List Nat
  | [] => []
  | ServerOp.submit gid _ :: rest => gid :: goalIds rest
  | _ :: rest => goalIds rest

/-- Number of handles in the store whose status is `ACTIVE` or
`PREEMPTING`. -/
def activeCount (s : ServerState) : Nat :=
  (s.ids.filter (fun i => runningStatus (s.handles i).status)).length

/-- The inductive invariant: handle ids are distinct, and any handle that is
running is the one in the `current_goal` slot. -/
def ServerInv (s : ServerState) : Prop :=
  s.ids.Nodup ∧
    ∀ i ∈ s.ids, runningStatus (s.handles i).status = true → s.current_goal = some i

lemma setGoalStatus_ids (s : ServerState) (slot : Option Nat) (st : GoalStatus) :
    (setGoalStatus s slot st).ids = s.ids := by
  cases slot <;> rfl

lemma setGoalStatus_current (s : ServerState) (slot : Option Nat) (st : GoalStatus) :
    (setGoalStatus s slot st).current_goal = s.current_goal := by
  cases slot <;> rfl

lemma setGoalStatus_next (s : ServerState) (slot : Option Nat) (st : GoalStatus) :
    (setGoalStatus s slot st).next_goal = s.next_goal := by
  cases slot <;> rfl

lemma setGoalStatus_status_self (s : ServerState) (i : Nat) (st : GoalStatus) :
    ((setGoalStatus s (some i) st).handles i).status = st := by
  simp [setGoalStatus]

lemma setGoalStatus_handles_other (s : ServerState) (i : Nat) (st : GoalStatus)
    (j : Nat) (h : j ≠ i) :
    (setGoalStatus s (some i) st).handles j = s.handles j := by
  simp [setGoalStatus, h]

/-- Claim C10: `is_active` returns `False` on the null-handle sentinel in the
current slot (as after construction) without raising, and otherwise returns
true exactly when the current goal status is `ACTIVE` or `PREEMPTING`. -/
theorem is_active_null_safe (s : ServerState) :
    (s.current_goal = none → is_active s = false) ∧
    ∀ c, s.current_goal = some c →
      (is_active s = true ↔
        ((s.handles c).status = GoalStatus.ACTIVE ∨
          (s.handles c).status = GoalStatus.PREEMPTING)) := by
  constructor
  · intro h
    simp [is_active, h]
  · intro c hc
    simp [is_active, hc, runningStatus]

theorem is_active_null_safe_wit :
    (initServer true).current_goal = none ∧ is_active (initServer true) = false :=
  ⟨rfl, (is_active_null_safe (initServer true)).1 rfl⟩

/-- Claim C8: `accept_new_goal` with `new_goal` false or an empty next slot
logs an error, returns no goal, and leaves the whole state unchanged. -/
theorem accept_new_goal_unavailable (s : ServerState)
    (h : s.new_goal = false ∨ s.next_goal = none) :
    (accept_new_goal s).state = s ∧ (accept_new_goal s).ret = none ∧
      (accept_new_goal s).loggedErr = true := by
  have hguard : (¬ s.new_goal ∨ s.next_goal = none) := by
    rcases h with h | h
    · exact Or.inl (by simp [h])
    · exact Or.inr h
  unfold accept_new_goal
  rw [if_pos hguard]
  exact ⟨rfl, rfl, rfl⟩

theorem accept_new_goal_unavailable_wit :
    (initServer true).new_goal = false ∧
      (accept_new_goal (initServer true)).ret = none :=
  ⟨rfl, (accept_new_goal_unavailable (initServer true) (Or.inl rfl)).2.1⟩

/-- Claim C6: a preempt token matching the current slot sets
`preempt_request` and invokes the registered preempt callback; a token
matching only the next slot sets `new_goal_preempt_request`; any other token
changes nothing and invokes nothing. -/
theorem preempt_cb_dispatch (s : ServerState) (tok : Nat) :
    (s.current_goal = some tok →
      (internal_preempt_callback s tok).state.preempt_request = true ∧
      (internal_preempt_callback s tok).state.new_goal_preempt_request =
        s.new_goal_preempt_request ∧
      (internal_preempt_callback s tok).calledPreemptCb = s.preempt_callback.isSome) ∧
    (s.current_goal ≠ some tok → s.next_goal = some tok →
      (internal_preempt_callback s tok).state.new_goal_preempt_request = true ∧
      (internal_preempt_callback s tok).state.preempt_request = s.preempt_request ∧
      (internal_preempt_callback s tok).calledPreemptCb = false) ∧
    (s.current_goal ≠ some tok → s.next_goal ≠ some tok →
      (internal_preempt_callback s tok).state = s ∧
      (internal_preempt_callback s tok).calledPreemptCb = false) := by
  refine ⟨fun h => ?_, fun h1 h2 => ?_, fun h1 h2 => ?_⟩
  · simp [internal_preempt_callback, h]
  · simp [internal_preempt_callback, h1, h2]
  · simp [internal_preempt_callback, h1, h2]

theorem preempt_cb_dispatch_wit :
    (runOps (initServer true) [ServerOp.submit 1 1, ServerOp.accept]).current_goal =
        some 1 ∧
      (internal_preempt_callback
          (runOps (initServer true) [ServerOp.submit 1 1, ServerOp.accept])
          1).state.preempt_request = true :=
  ⟨by decide, ((preempt_cb_dispatch _ 1).1 (by decide)).1⟩

/-- Claim C5 evaluation: with a registered goal callback that raises, the
admission sequence on an otherwise idle server terminates with the exception
escaping `internal_goal_callback` and the `execute_condition` lock still
held, because the handler `except e:` is itself broken (the name `e` is
unbound).  The code therefore contradicts the spec sentence that such
exceptions are caught, logged and the lock released on every path. -/
theorem goal_cb_exception_leaks_lock :
    (internal_goal_callback (register_goal_callback (initServer false) true) 1 1).raised =
        true ∧
      (internal_goal_callback (register_goal_callback (initServer false) true) 1
            1).lockReleased = false ∧
      (internal_goal_callback (register_goal_callback (initServer false) true) 1
            1).calledGoalCb = true := by
  decide

@[simp] lemma setGoalStatus_new_goal (s : ServerState) (slot : Option Nat) (st : GoalStatus) :
    (setGoalStatus s slot st).new_goal = s.new_goal := by
  cases slot <;> rfl

@[simp] lemma setGoalStatus_preempt_request (s : ServerState) (slot : Option Nat)
    (st : GoalStatus) :
    (setGoalStatus s slot st).preempt_request = s.preempt_request := by
  cases slot <;> rfl

@[simp] lemma setGoalStatus_ngpr (s : ServerState) (slot : Option Nat) (st : GoalStatus) :
    (setGoalStatus s slot st).new_goal_preempt_request = s.new_goal_preempt_request := by
  cases slot <;> rfl

@[simp] lemma setGoalStatus_goal_callback (s : ServerState) (slot : Option Nat)
    (st : GoalStatus) :
    (setGoalStatus s slot st).goal_callback = s.goal_callback := by
  cases slot <;> rfl

@[simp] lemma setGoalStatus_preempt_callback (s : ServerState) (slot : Option Nat)
    (st : GoalStatus) :
    (setGoalStatus s slot st).preempt_callback = s.preempt_callback := by
  cases slot <;> rfl

@[simp] lemma setGoalStatus_execute_callback (s : ServerState) (slot : Option Nat)
    (st : GoalStatus) :
    (setGoalStatus s slot st).execute_callback = s.execute_callback := by
  cases slot <;> rfl


lemma accept_spec (s : ServerState) (n : Nat)
    (hng : s.new_goal = true) (hn : s.next_goal = some n) :
    (accept_new_goal s).state.current_goal = some n ∧
    (accept_new_goal s).state.next_goal = some n ∧
    (accept_new_goal s).state.new_goal = false ∧
    (accept_new_goal s).state.preempt_request = s.new_goal_preempt_request ∧
    (accept_new_goal s).state.new_goal_preempt_request = false ∧
    ((accept_new_goal s).state.handles n).status = GoalStatus.ACTIVE ∧
    (accept_new_goal s).ret = some n ∧
    (accept_new_goal s).loggedErr = false ∧
    (accept_new_goal s).state.execute_callback = s.execute_callback ∧
    (accept_new_goal s).state.ids = s.ids ∧
    ∀ c, s.current_goal = some c → c ≠ n → is_active s = true →
      ((accept_new_goal s).state.handles c).status = GoalStatus.PREEMPTED := by
  have hguard : ¬(¬ s.new_goal ∨ s.next_goal = none) := by simp [hng, hn]
  unfold accept_new_goal
  rw [if_neg hguard]
  dsimp only
  split_ifs with hcan
  · obtain ⟨hact, hsome, hne⟩ := hcan
    obtain ⟨c0, hc0⟩ := Option.isSome_iff_exists.mp hsome
    have hc0n : c0 ≠ n := fun h => hne (by rw [hc0, hn, h])
    refine ⟨?_, ?_, ?_, ?_, ?_, ?_, ?_, ?_, ?_, ?_, ?_⟩
    · simp [setGoalStatus, hc0, hn]
    · simp [setGoalStatus, hc0, hn]
    · simp [setGoalStatus, hc0, hn]
    · simp [setGoalStatus, hc0, hn]
    · simp [setGoalStatus, hc0, hn]
    · simp [setGoalStatus, hc0, hn]
    · simp [setGoalStatus, hc0, hn]
    · simp [setGoalStatus, hc0, hn]
    · simp [setGoalStatus, hc0, hn]
    · simp [setGoalStatus, hc0, hn]
    · intro c hc hcn _
      rw [hc0] at hc
      cases hc
      simp [setGoalStatus, hc0, hn, hcn, hc0n]
  · refine ⟨?_, ?_, ?_, ?_, ?_, ?_, ?_, ?_, ?_, ?_, ?_⟩
    · simp [setGoalStatus, hn]
    · simp [setGoalStatus, hn]
    · simp [setGoalStatus, hn]
    · simp [setGoalStatus, hn]
    · simp [setGoalStatus, hn]
    · simp [setGoalStatus, hn]
    · simp [setGoalStatus, hn]
    · simp [setGoalStatus, hn]
    · simp [setGoalStatus, hn]
    · simp [setGoalStatus, hn]
    · intro c hc hcn hact
      exfalso
      apply hcan
      refine ⟨hact, by simp [hc], ?_⟩
      rw [hc, hn]
      simp [hcn]

/-- Claim C3: `accept_new_goal` with `new_goal` true and a goal in the next
slot cancels (`PREEMPTED`) a still-active current goal distinct from next,
promotes next to current clearing `new_goal`, propagates the deferred
preempt flag (`preempt_request := new_goal_preempt_request`, clearing the
latter), marks the promoted goal `ACTIVE`, and returns the promoted
handle. -/
theorem accept_new_goal_promotes (s : ServerState) (n : Nat)
    (hng : s.new_goal = true) (hn : s.next_goal = some n) :
    (∀ c, s.current_goal = some c → is_active s = true → c ≠ n →
      ((accept_new_goal s).state.handles c).status = GoalStatus.PREEMPTED) ∧
    (accept_new_goal s).state.current_goal = some n ∧
    (accept_new_goal s).state.new_goal = false ∧
    (accept_new_goal s).state.preempt_request = s.new_goal_preempt_request ∧
    (accept_new_goal s).state.new_goal_preempt_request = false ∧
    ((accept_new_goal s).state.handles n).status = GoalStatus.ACTIVE ∧
    (accept_new_goal s).ret = some n := by
  obtain ⟨h1, _, h3, h4, h5, h6, h7, _, _, _, h11⟩ := accept_spec s n hng hn
  exact ⟨fun c hc hact hcn => h11 c hc hcn hact, h1, h3, h4, h5, h6, h7⟩

theorem accept_new_goal_promotes_wit :
    (runOps (initServer true)
        [ServerOp.submit 1 1, ServerOp.accept, ServerOp.submit 2 2,
          ServerOp.preempt 2]).new_goal = true ∧
    (runOps (initServer true)
        [ServerOp.submit 1 1, ServerOp.accept, ServerOp.submit 2 2,
          ServerOp.preempt 2]).next_goal = some 2 ∧
    ((accept_new_goal
        (runOps (initServer true)
          [ServerOp.submit 1 1, ServerOp.accept, ServerOp.submit 2 2,
            ServerOp.preempt 2])).state.handles 1).status = GoalStatus.PREEMPTED ∧
    (accept_new_goal
        (runOps (initServer true)
          [ServerOp.submit 1 1, ServerOp.accept, ServerOp.submit 2 2,
            ServerOp.preempt 2])).state.preempt_request =
      (runOps (initServer true)
          [ServerOp.submit 1 1, ServerOp.accept, ServerOp.submit 2 2,
            ServerOp.preempt 2]).new_goal_preempt_request :=
  ⟨by decide, by decide,
    (accept_new_goal_promotes _ 2 (by decide) (by decide)).1 1 (by decide) (by decide)
      (by decide),
    (accept_new_goal_promotes _ 2 (by decide) (by decide)).2.2.2.1⟩

lemma accept_ret_some (s : ServerState) (g : Nat)
    (h : (accept_new_goal s).ret = some g) :
    s.new_goal = true ∧ s.next_goal = some g := by
  by_cases hguard : ¬ s.new_goal ∨ s.next_goal = none
  · have : (accept_new_goal s).ret = none := by
      unfold accept_new_goal
      rw [if_pos hguard]
    rw [this] at h
    cases h
  · push_neg at hguard
    have hng : s.new_goal = true := by
      have := hguard.1
      simpa using this
    obtain ⟨m, hm⟩ := Option.ne_none_iff_exists'.mp hguard.2
    have hret := (accept_spec s m hng hm).2.2.2.2.2.2.1
    rw [hret] at h
    cases h
    exact ⟨hng, hm⟩

lemma goal_cb_status_other (s : ServerState) (gid stamp j : Nat) (hj : j ≠ gid)
    (heq : s.next_goal = s.current_goal) :
    ((internal_goal_callback s gid stamp).state.handles j).status =
      (s.handles j).status := by
  have hbump : ¬((submittedState s gid stamp).next_goal.isSome = true ∧
      ((submittedState s gid stamp).current_goal = none ∨
        (submittedState s gid stamp).next_goal ≠ (submittedState s gid stamp).current_goal)) := by
    simp only [submittedState]
    cases hc : s.current_goal with
    | none => simp [heq, hc]
    | some c => simp [heq, hc]
  unfold internal_goal_callback goalCbBase
  dsimp only
  split_ifs <;>
    first
      | (exact absurd (by assumption) hbump)
      | simp [submittedState, setGoalStatus, hj]

/-- Claim C9: after a successful `accept_new_goal` the next slot is not
cleared, so current and next hold the same handle; a preempt token for the
just-accepted goal therefore matches the current branch (it sets
`preempt_request`, leaving `new_goal_preempt_request` as it was), and a
later admission never cancels this handle in its bump step because that
cancel is guarded by next being distinct from current. -/
theorem accept_keeps_next_slot (s : ServerState) (g : Nat)
    (h : (accept_new_goal s).ret = some g) :
    (accept_new_goal s).state.current_goal = some g ∧
    (accept_new_goal s).state.next_goal = some g ∧
    (internal_preempt_callback (accept_new_goal s).state g).state.preempt_request = true ∧
    (internal_preempt_callback (accept_new_goal s).state g).state.new_goal_preempt_request =
      (accept_new_goal s).state.new_goal_preempt_request ∧
    ∀ gid stamp, gid ≠ g →
      ((internal_goal_callback (accept_new_goal s).state gid stamp).state.handles g).status =
        ((accept_new_goal s).state.handles g).status := by
  obtain ⟨hng, hn⟩ := accept_ret_some s g h
  obtain ⟨hcur, hnext, _⟩ := accept_spec s g hng hn
  refine ⟨hcur, hnext, ?_, ?_, ?_⟩
  · simp [internal_preempt_callback, hcur]
  · simp [internal_preempt_callback, hcur]
  · intro gid stamp hgid
    exact goal_cb_status_other _ gid stamp g (fun he => hgid he.symm) (by rw [hcur, hnext])

theorem accept_keeps_next_slot_wit :
    (accept_new_goal
        (runOps (initServer true) [ServerOp.submit 1 1])).ret = some 1 ∧
      (accept_new_goal
          (runOps (initServer true) [ServerOp.submit 1 1])).state.current_goal = some 1 ∧
      (accept_new_goal
          (runOps (initServer true) [ServerOp.submit 1 1])).state.next_goal = some 1 :=
  ⟨by decide,
    (accept_keeps_next_slot _ 1 (by decide)).1,
    (accept_keeps_next_slot _ 1 (by decide)).2.1⟩

lemma slotStampOlder_submitted (s : ServerState) (gid stamp stamp2 : Nat)
    (slot : Option Nat) (h : slot ≠ some gid) :
    slotStampOlder (submittedState s gid stamp) slot stamp2 =
      slotStampOlder s slot stamp2 := by
  cases slot with
  | none => rfl
  | some c =>
    have hcg : c ≠ gid := fun hcc => h (by rw [hcc])
    simp [slotStampOlder, submittedState, hcg]

@[simp] lemma is_active_mk (h : Nat → HandleInfo) (ids : List Nat)
    (cur nxt : Option Nat) (ng pr ngpr : Bool) (gcb pcb : Option Bool) (ecb : Bool) :
    is_active ⟨h, ids, cur, nxt, ng, pr, ngpr, gcb, pcb, ecb⟩ =
      (match cur with
       | none => false
       | some c => runningStatus (h c).status) := rfl

lemma goal_cb_accept_state (s : ServerState) (gid stamp : Nat)
    (hcond : (slotStampOlder (submittedState s gid stamp)
        (submittedState s gid stamp).current_goal stamp &&
      slotStampOlder (submittedState s gid stamp)
        (submittedState s gid stamp).next_goal stamp) = true) :
    (internal_goal_callback s gid stamp).state =
      (if is_active (goalCbBase s gid stamp) then
        { goalCbBase s gid stamp with preempt_request := true }
      else goalCbBase s gid stamp) := by
  unfold internal_goal_callback
  rw [if_pos hcond]
  dsimp only [goalCbBase]
  split_ifs <;> rfl

lemma goal_cb_accept_called (s : ServerState) (gid stamp : Nat)
    (hcond : (slotStampOlder (submittedState s gid stamp)
        (submittedState s gid stamp).current_goal stamp &&
      slotStampOlder (submittedState s gid stamp)
        (submittedState s gid stamp).next_goal stamp) = true) :
    (internal_goal_callback s gid stamp).calledPreemptCb =
      (is_active (goalCbBase s gid stamp) &&
        (goalCbBase s gid stamp).preempt_callback.isSome) := by
  unfold internal_goal_callback
  rw [if_pos hcond]
  dsimp only [goalCbBase]
  split_ifs <;> simp_all

/-- Claim C2: a submission whose timestamp does not strictly exceed the
timestamp of a non-null current goal, or of a non-null next goal, is
rejected: the submitted handle is immediately set canceled (`PREEMPTED`)
while `current_goal`, `next_goal`, `new_goal`, `preempt_request` and
`new_goal_preempt_request` are all left unchanged.  The transport assigns
the submission a fresh id, so it differs from both slots. -/
theorem goal_cb_rejects_stale (s : ServerState) (gid stamp : Nat)
    (hc : s.current_goal ≠ some gid) (hn : s.next_goal ≠ some gid)
    (hstale : (slotStampOlder s s.current_goal stamp &&
      slotStampOlder s s.next_goal stamp) = false) :
    ((internal_goal_callback s gid stamp).state.handles gid).status =
        GoalStatus.PREEMPTED ∧
      (internal_goal_callback s gid stamp).state.current_goal = s.current_goal ∧
      (internal_goal_callback s gid stamp).state.next_goal = s.next_goal ∧
      (internal_goal_callback s gid stamp).state.new_goal = s.new_goal ∧
      (internal_goal_callback s gid stamp).state.preempt_request = s.preempt_request ∧
      (internal_goal_callback s gid stamp).state.new_goal_preempt_request =
        s.new_goal_preempt_request := by
  have hcond : (slotStampOlder (submittedState s gid stamp)
      (submittedState s gid stamp).current_goal stamp &&
    slotStampOlder (submittedState s gid stamp)
      (submittedState s gid stamp).next_goal stamp) = false := by
    have h1 : (submittedState s gid stamp).current_goal = s.current_goal := rfl
    have h2 : (submittedState s gid stamp).next_goal = s.next_goal := rfl
    rw [h1, h2, slotStampOlder_submitted s gid stamp stamp _ hc,
      slotStampOlder_submitted s gid stamp stamp _ hn]
    exact hstale
  unfold internal_goal_callback
  rw [if_neg (by rw [hcond]; exact Bool.false_ne_true)]
  refine ⟨?_, ?_, ?_, ?_, ?_, ?_⟩ <;> simp [setGoalStatus, submittedState]

theorem goal_cb_rejects_stale_wit :
    ((runOps (initServer true) [ServerOp.submit 1 5, ServerOp.accept]).current_goal ≠
        some 2 ∧
      (runOps (initServer true) [ServerOp.submit 1 5, ServerOp.accept]).next_goal ≠
        some 2 ∧
      (slotStampOlder (runOps (initServer true) [ServerOp.submit 1 5, ServerOp.accept])
          (runOps (initServer true) [ServerOp.submit 1 5, ServerOp.accept]).current_goal 3 &&
        slotStampOlder (runOps (initServer true) [ServerOp.submit 1 5, ServerOp.accept])
          (runOps (initServer true) [ServerOp.submit 1 5, ServerOp.accept]).next_goal 3) =
        false) ∧
    ((internal_goal_callback
        (runOps (initServer true) [ServerOp.submit 1 5, ServerOp.accept]) 2
        3).state.handles 2).status = GoalStatus.PREEMPTED :=
  ⟨⟨by decide, by decide, by decide⟩,
    (goal_cb_rejects_stale _ 2 3 (by decide) (by decide) (by decide)).1⟩

lemma is_active_goalCbBase (s : ServerState) (gid stamp : Nat)
    (hc : s.current_goal ≠ some gid) :
    is_active (goalCbBase s gid stamp) = is_active s := by
  rcases hcur : s.current_goal with _ | c
  · rcases hnext : s.next_goal with _ | n
    · simp [goalCbBase, submittedState, is_active, hcur, hnext]
    · simp [goalCbBase, submittedState, setGoalStatus, is_active, hcur, hnext]
  · have hcg : c ≠ gid := fun h => hc (by rw [hcur, h])
    rcases hnext : s.next_goal with _ | n
    · simp [goalCbBase, submittedState, is_active, hcur, hnext, hcg]
    · by_cases hnc : n = c
      · subst hnc
        simp [goalCbBase, submittedState, is_active, hcur, hnext, hcg]
      · simp [goalCbBase, submittedState, setGoalStatus, is_active, hcur, hnext, hcg,
          hnc, Ne.symm hnc]

/-- Claim C4: a submission whose timestamp strictly exceeds those of the
non-null current and next goals (vacuously for null slots) is admitted:
the previous next goal, if distinct from current, is canceled
(`PREEMPTED`); the submission becomes next with `new_goal := true` and
`new_goal_preempt_request := false`; and if the current goal is active,
`preempt_request` is set and the registered preempt callback is invoked.
The transport assigns the submission a fresh id. -/
theorem goal_cb_admits_newer (s : ServerState) (gid stamp : Nat)
    (hc : s.current_goal ≠ some gid) (hn : s.next_goal ≠ some gid)
    (h1 : slotStampOlder s s.current_goal stamp = true)
    (h2 : slotStampOlder s s.next_goal stamp = true) :
    (∀ n, s.next_goal = some n → s.next_goal ≠ s.current_goal →
      ((internal_goal_callback s gid stamp).state.handles n).status =
        GoalStatus.PREEMPTED) ∧
    (internal_goal_callback s gid stamp).state.next_goal = some gid ∧
    (internal_goal_callback s gid stamp).state.new_goal = true ∧
    (internal_goal_callback s gid stamp).state.new_goal_preempt_request = false ∧
    (is_active s = true →
      (internal_goal_callback s gid stamp).state.preempt_request = true ∧
      (internal_goal_callback s gid stamp).calledPreemptCb =
        s.preempt_callback.isSome) := by
  have hcond : (slotStampOlder (submittedState s gid stamp)
      (submittedState s gid stamp).current_goal stamp &&
    slotStampOlder (submittedState s gid stamp)
      (submittedState s gid stamp).next_goal stamp) = true := by
    rw [show (submittedState s gid stamp).current_goal = s.current_goal from rfl,
      show (submittedState s gid stamp).next_goal = s.next_goal from rfl,
      slotStampOlder_submitted s gid stamp stamp _ hc,
      slotStampOlder_submitted s gid stamp stamp _ hn, h1, h2]
    rfl
  have hstate := goal_cb_accept_state s gid stamp hcond
  have hcalled := goal_cb_accept_called s gid stamp hcond
  have hact := is_active_goalCbBase s gid stamp hc
  refine ⟨?_, ?_, ?_, ?_, ?_⟩
  · intro n hsn hne
    have hne2 : (some n : Option Nat) ≠ s.current_goal := hsn ▸ hne
    have hbase : ((goalCbBase s gid stamp).handles n).status = GoalStatus.PREEMPTED := by
      simp [goalCbBase, submittedState, setGoalStatus, hsn, hne2]
    rw [hstate]
    split
    · exact hbase
    · exact hbase
  · rw [hstate]
    split
    · simp [goalCbBase]
    · simp [goalCbBase]
  · rw [hstate]
    split
    · simp [goalCbBase]
    · simp [goalCbBase]
  · rw [hstate]
    split
    · simp [goalCbBase]
    · simp [goalCbBase]
  · intro hact2
    have hgact : is_active (goalCbBase s gid stamp) = true := hact.trans hact2
    constructor
    · rw [hstate, if_pos hgact]
    · rw [hcalled, hgact]
      simp [goalCbBase, submittedState, apply_ite ServerState.preempt_callback]

theorem goal_cb_admits_newer_wit :
    ((runOps (initServer true)
          [ServerOp.submit 1 1, ServerOp.accept, ServerOp.submit 2 2]).current_goal ≠
        some 3 ∧
      (runOps (initServer true)
          [ServerOp.submit 1 1, ServerOp.accept, ServerOp.submit 2 2]).next_goal ≠
        some 3 ∧
      slotStampOlder
          (runOps (initServer true)
            [ServerOp.submit 1 1, ServerOp.accept, ServerOp.submit 2 2])
          (runOps (initServer true)
            [ServerOp.submit 1 1, ServerOp.accept, ServerOp.submit 2 2]).current_goal 5 =
        true ∧
      slotStampOlder
          (runOps (initServer true)
            [ServerOp.submit 1 1, ServerOp.accept, ServerOp.submit 2 2])
          (runOps (initServer true)
            [ServerOp.submit 1 1, ServerOp.accept, ServerOp.submit 2 2]).next_goal 5 =
        true) ∧
    ((internal_goal_callback
        (runOps (initServer true)
          [ServerOp.submit 1 1, ServerOp.accept, ServerOp.submit 2 2]) 3
        5).state.handles 2).status = GoalStatus.PREEMPTED ∧
    (internal_goal_callback
        (runOps (initServer true)
          [ServerOp.submit 1 1, ServerOp.accept, ServerOp.submit 2 2]) 3
        5).state.preempt_request = true :=
  ⟨⟨by decide, by decide, by decide, by decide⟩,
    (goal_cb_admits_newer _ 3 5 (by decide) (by decide) (by decide) (by decide)).1 2
      (by decide) (by decide),
    ((goal_cb_admits_newer _ 3 5 (by decide) (by decide) (by decide)
        (by decide)).2.2.2.2 (by decide)).1⟩

lemma is_active_some (s : ServerState) (c : Nat) (h : s.current_goal = some c) :
    is_active s = runningStatus (s.handles c).status := by
  simp [is_active, h]

/-- Claim C7: in an `executeLoop` iteration that ran the user execute
callback, if the callback returned leaving the accepted goal in a
non-terminal (`ACTIVE` or `PREEMPTING`) status, the loop forces that goal to
`ABORTED` via `set_aborted` and logs the warning; if the callback left the
goal terminal, the loop does not change its status.  The execute callback is
modelled as a state transformer that does not reassign the current slot
(the status API never does). -/
theorem executeLoop_forces_aborted (s : ServerState) (ec : ServerState → ServerState)
    (n : Nat)
    (hna : is_active s = false)
    (hng : is_new_goal_available s = true)
    (hnx : s.next_goal = some n)
    (hec : s.execute_callback = true)
    (hcur : (ec (accept_new_goal s).state).current_goal =
      (accept_new_goal s).state.current_goal) :
    (runningStatus ((ec (accept_new_goal s).state).handles n).status = true →
      ((executeLoopIter s ec).1.handles n).status = GoalStatus.ABORTED ∧
        (executeLoopIter s ec).2 = LoopStep.normal true true) ∧
    (runningStatus ((ec (accept_new_goal s).state).handles n).status = false →
      ((executeLoopIter s ec).1.handles n).status =
          ((ec (accept_new_goal s).state).handles n).status ∧
        (executeLoopIter s ec).2 = LoopStep.normal true false) := by
  have hng2 : s.new_goal = true := hng
  have hacc := accept_spec s n hng2 hnx
  have hcur2 : (ec (accept_new_goal s).state).current_goal = some n := by
    rw [hcur, hacc.1]
  have hexec : (accept_new_goal s).state.execute_callback = true := by
    rw [hacc.2.2.2.2.2.2.2.2.1, hec]
  have h3 : ¬ (is_active s = true) := by simp [hna]
  have h4 : ¬ ¬ ((accept_new_goal s).state.execute_callback = true) := by
    simp [hexec]
  simp only [executeLoopIter]
  rw [if_neg h3, if_pos (show is_new_goal_available s = true from hng), if_neg h4]
  constructor
  · intro hrun
    have hia : is_active (ec (accept_new_goal s).state) = true := by
      rw [is_active_some _ n hcur2, hrun]
    rw [if_pos hia]
    refine ⟨?_, rfl⟩
    simp [set_aborted, hcur2, setGoalStatus_status_self]
  · intro hrun
    have hia : ¬ (is_active (ec (accept_new_goal s).state) = true) := by
      rw [is_active_some _ n hcur2, hrun]
      simp
    rw [if_neg hia]
    exact ⟨rfl, rfl⟩

theorem executeLoop_forces_aborted_wit :
    (is_active (runOps (initServer true) [ServerOp.submit 1 1]) = false ∧
      is_new_goal_available (runOps (initServer true) [ServerOp.submit 1 1]) = true ∧
      (runOps (initServer true) [ServerOp.submit 1 1]).next_goal = some 1 ∧
      (runOps (initServer true) [ServerOp.submit 1 1]).execute_callback = true) ∧
    ((executeLoopIter (runOps (initServer true) [ServerOp.submit 1 1])
          (fun t => t)).1.handles 1).status = GoalStatus.ABORTED ∧
    (executeLoopIter (runOps (initServer true) [ServerOp.submit 1 1])
        (fun t => t)).2 = LoopStep.normal true true :=
  ⟨⟨by decide, by decide, by decide, by decide⟩,
    ((executeLoop_forces_aborted _ _ 1 (by decide) (by decide) (by decide) (by decide)
        rfl).1 (by decide)).1,
    ((executeLoop_forces_aborted _ _ 1 (by decide) (by decide) (by decide) (by decide)
        rfl).1 (by decide)).2⟩

lemma setGoalStatus_handles_cases (s : ServerState) (slot : Option Nat)
    (st : GoalStatus) (j : Nat) :
    (setGoalStatus s slot st).handles j = s.handles j ∨
      ((setGoalStatus s slot st).handles j).status = st := by
  cases slot with
  | none => exact Or.inl rfl
  | some i =>
    by_cases hj : j = i
    · right
      rw [hj]
      exact setGoalStatus_status_self s i st
    · left
      exact setGoalStatus_handles_other s i st j hj

lemma length_le_one_of_all_eq {l : List Nat} {c : Nat} (hn : l.Nodup)
    (h : ∀ a ∈ l, a = c) : l.length ≤ 1 := by
  match l, hn, h with
  | [], _, _ => simp
  | [a], _, _ => simp
  | a :: b :: t, hn, h =>
    exfalso
    have ha := h a (by simp)
    have hb := h b (by simp)
    have hnodup := List.nodup_cons.mp hn
    rw [show a = b from ha.trans hb.symm] at hnodup
    exact hnodup.1 (List.mem_cons_self b t)

lemma serverInv_activeCount (s : ServerState) (h : ServerInv s) :
    activeCount s ≤ 1 := by
  unfold activeCount
  rcases hcur : s.current_goal with _ | c
  · have : s.ids.filter (fun i => runningStatus (s.handles i).status) = [] := by
      rw [List.filter_eq_nil_iff]
      intro i hi hrun
      have := h.2 i hi (by simpa using hrun)
      rw [hcur] at this
      cases this
    rw [this]
    simp
  · apply length_le_one_of_all_eq (h.1.filter _)
    intro a ha
    have hmem := List.mem_filter.mp ha
    have := h.2 a hmem.1 (by simpa using hmem.2)
    rw [hcur] at this
    exact (Option.some.injEq _ _ ▸ this).symm

lemma serverInv_transfer (s t : ServerState) (h : ServerInv s)
    (hids : t.ids = s.ids) (hh : t.handles = s.handles)
    (hc : t.current_goal = s.current_goal) : ServerInv t := by
  constructor
  · rw [hids]; exact h.1
  · intro i hi hrun
    rw [hc]
    exact h.2 i (hids ▸ hi) (by rw [hh] at hrun; exact hrun)

lemma serverInv_setGoalStatus (s : ServerState) (slot : Option Nat) (st : GoalStatus)
    (h : ServerInv s) (hst : runningStatus st = false) :
    ServerInv (setGoalStatus s slot st) := by
  constructor
  · rw [setGoalStatus_ids]; exact h.1
  · intro i hi hrun
    rw [setGoalStatus_current]
    rcases setGoalStatus_handles_cases s slot st i with hcase | hcase
    · exact h.2 i (by rwa [setGoalStatus_ids] at hi) (by rwa [hcase] at hrun)
    · rw [hcase, hst] at hrun
      cases hrun

lemma serverInv_submitted (s : ServerState) (gid stamp : Nat) (h : ServerInv s)
    (hfresh : gid ∉ s.ids) : ServerInv (submittedState s gid stamp) := by
  constructor
  · simp [submittedState, h.1, hfresh]
  · intro i hi hrun
    simp only [submittedState] at hi hrun ⊢
    rcases List.mem_cons.mp hi with hi | hi
    · subst hi
      simp [runningStatus] at hrun
    · have hig : i ≠ gid := fun he => hfresh (he ▸ hi)
      rw [if_neg hig] at hrun
      exact h.2 i hi hrun

lemma serverInv_goalCbBase (s : ServerState) (gid stamp : Nat) (h : ServerInv s)
    (hfresh : gid ∉ s.ids) : ServerInv (goalCbBase s gid stamp) := by
  have h0 := serverInv_submitted s gid stamp h hfresh
  simp only [goalCbBase]
  split_ifs with hb
  · exact serverInv_transfer _ _
      (serverInv_setGoalStatus (submittedState s gid stamp)
        (submittedState s gid stamp).next_goal GoalStatus.PREEMPTED h0 rfl) rfl rfl rfl
  · exact serverInv_transfer _ _ h0 rfl rfl rfl

lemma goal_cb_reject_state (s : ServerState) (gid stamp : Nat)
    (hcond : (slotStampOlder (submittedState s gid stamp)
        (submittedState s gid stamp).current_goal stamp &&
      slotStampOlder (submittedState s gid stamp)
        (submittedState s gid stamp).next_goal stamp) = false) :
    (internal_goal_callback s gid stamp).state =
      setGoalStatus (submittedState s gid stamp) (some gid) GoalStatus.PREEMPTED := by
  unfold internal_goal_callback
  rw [if_neg (by rw [hcond]; exact Bool.false_ne_true)]

lemma serverInv_goal_cb (s : ServerState) (gid stamp : Nat) (h : ServerInv s)
    (hfresh : gid ∉ s.ids) :
    ServerInv (internal_goal_callback s gid stamp).state := by
  by_cases hcond : (slotStampOlder (submittedState s gid stamp)
      (submittedState s gid stamp).current_goal stamp &&
    slotStampOlder (submittedState s gid stamp)
      (submittedState s gid stamp).next_goal stamp) = true
  · rw [goal_cb_accept_state s gid stamp hcond]
    have hbase := serverInv_goalCbBase s gid stamp h hfresh
    split_ifs with ha
    · exact serverInv_transfer _ _ hbase rfl rfl rfl
    · exact hbase
  · rw [goal_cb_reject_state s gid stamp (by simpa using hcond)]
    exact serverInv_setGoalStatus _ _ _ (serverInv_submitted s gid stamp h hfresh) rfl

lemma accept_handles_other (s : ServerState) (n : Nat) (hng : s.new_goal = true)
    (hn : s.next_goal = some n) (i : Nat) (hin : i ≠ n) :
    (accept_new_goal s).state.handles i =
      (if is_active s ∧ s.current_goal.isSome ∧ s.current_goal ≠ s.next_goal then
        setGoalStatus s s.current_goal GoalStatus.PREEMPTED
      else s).handles i := by
  have hguard : ¬(¬ s.new_goal ∨ s.next_goal = none) := by simp [hng, hn]
  unfold accept_new_goal
  rw [if_neg hguard]
  dsimp only
  split_ifs with hcan
  · obtain ⟨hact, hsome, hne⟩ := hcan
    obtain ⟨c0, hc0⟩ := Option.isSome_iff_exists.mp hsome
    simp [setGoalStatus, hc0, hn, hin]
  · simp [setGoalStatus, hn, hin]

lemma serverInv_accept (s : ServerState) (h : ServerInv s) :
    ServerInv (accept_new_goal s).state := by
  by_cases hguard : ¬ s.new_goal ∨ s.next_goal = none
  · have he : (accept_new_goal s).state = s := by
      unfold accept_new_goal
      rw [if_pos hguard]
    rw [he]
    exact h
  · have hng : s.new_goal = true := by
      by_contra hb
      exact hguard (Or.inl hb)
    have hnn : s.next_goal ≠ none := fun hx => hguard (Or.inr hx)
    obtain ⟨n, hn⟩ := Option.ne_none_iff_exists'.mp hnn
    obtain ⟨hcur, -, -, -, -, hstat, -, -, -, hids, -⟩ := accept_spec s n hng hn
    constructor
    · rw [hids]; exact h.1
    · intro i hi hrun
      rw [hcur]
      by_cases hin : i = n
      · rw [hin]
      · exfalso
        have hho := accept_handles_other s n hng hn i hin
        rw [hho] at hrun
        rw [hids] at hi
        split_ifs at hrun with hcan
        · obtain ⟨hact, hsome, hne⟩ := hcan
          obtain ⟨c0, hc0⟩ := Option.isSome_iff_exists.mp hsome
          rw [hc0] at hrun
          by_cases hic : i = c0
          · rw [hic, setGoalStatus_status_self] at hrun
            cases hrun
          · rw [setGoalStatus_handles_other s c0 GoalStatus.PREEMPTED i hic] at hrun
            have := h.2 i hi hrun
            rw [hc0] at this
            exact hic (Option.some.inj this).symm
        · have hsc := h.2 i hi hrun
          have hact : is_active s = true := by
            rw [is_active_some s i hsc]; exact hrun
          apply hcan
          refine ⟨hact, by simp [hsc], ?_⟩
          rw [hsc, hn]
          simp [hin]

lemma serverInv_preempt (s : ServerState) (tok : Nat) (h : ServerInv s) :
    ServerInv (internal_preempt_callback s tok).state := by
  unfold internal_preempt_callback
  split_ifs <;> exact serverInv_transfer _ _ h rfl rfl rfl

lemma serverInv_step (s : ServerState) (op : ServerOp) (h : ServerInv s)
    (hfresh : ∀ gid stamp, op = ServerOp.submit gid stamp → gid ∉ s.ids) :
    ServerInv (stepOp s op) := by
  cases op with
  | submit gid stamp => exact serverInv_goal_cb s gid stamp h (hfresh gid stamp rfl)
  | preempt tok => exact serverInv_preempt s tok h
  | accept => exact serverInv_accept s h
  | succeed => exact serverInv_setGoalStatus s s.current_goal GoalStatus.SUCCEEDED h rfl
  | abort => exact serverInv_setGoalStatus s s.current_goal GoalStatus.ABORTED h rfl
  | cancelCur => exact serverInv_setGoalStatus s s.current_goal GoalStatus.PREEMPTED h rfl
  | regGoal b =>
    show ServerInv (register_goal_callback s b)
    unfold register_goal_callback
    split_ifs
    · exact h
    · exact serverInv_transfer _ _ h rfl rfl rfl
  | regPreempt b => exact serverInv_transfer _ _ h rfl rfl rfl

lemma goal_cb_state_ids (s : ServerState) (gid stamp : Nat) :
    (internal_goal_callback s gid stamp).state.ids = gid :: s.ids := by
  by_cases hcond : (slotStampOlder (submittedState s gid stamp)
      (submittedState s gid stamp).current_goal stamp &&
    slotStampOlder (submittedState s gid stamp)
      (submittedState s gid stamp).next_goal stamp) = true
  · rw [goal_cb_accept_state s gid stamp hcond]
    split_ifs <;>
      simp [goalCbBase, submittedState, setGoalStatus_ids, apply_ite ServerState.ids]
  · rw [goal_cb_reject_state s gid stamp (by simpa using hcond)]
    simp [submittedState, setGoalStatus_ids]

lemma accept_state_ids (s : ServerState) :
    (accept_new_goal s).state.ids = s.ids := by
  by_cases hguard : ¬ s.new_goal ∨ s.next_goal = none
  · unfold accept_new_goal
    rw [if_pos hguard]
  · have hng : s.new_goal = true := by
      by_contra hb
      exact hguard (Or.inl hb)
    have hnn : s.next_goal ≠ none := fun hx => hguard (Or.inr hx)
    obtain ⟨n, hn⟩ := Option.ne_none_iff_exists'.mp hnn
    exact (accept_spec s n hng hn).2.2.2.2.2.2.2.2.2.1

lemma stepOp_ids (s : ServerState) (op : ServerOp) :
    (stepOp s op).ids = goalIds [op] ++ s.ids := by
  cases op with
  | submit gid stamp =>
    show (internal_goal_callback s gid stamp).state.ids = _
    rw [goal_cb_state_ids]
    rfl
  | preempt tok =>
    show (internal_preempt_callback s tok).state.ids = _
    unfold internal_preempt_callback
    split_ifs <;> rfl
  | accept =>
    show (accept_new_goal s).state.ids = _
    rw [accept_state_ids]
    rfl
  | succeed => simp [stepOp, set_succeeded, setGoalStatus_ids, goalIds]
  | abort => simp [stepOp, set_aborted, setGoalStatus_ids, goalIds]
  | cancelCur => simp [stepOp, set_preempted, setGoalStatus_ids, goalIds]
  | regGoal b =>
    show (register_goal_callback s b).ids = _
    unfold register_goal_callback
    split_ifs <;> rfl
  | regPreempt b => rfl

lemma runOps_inv (ops : List ServerOp) (s : ServerState) (h : ServerInv s)
    (hnodup : (goalIds ops ++ s.ids).Nodup) : ServerInv (runOps s ops) := by
  induction ops generalizing s with
  | nil => exact h
  | cons op rest ih =>
    have hfresh : ∀ gid stamp, op = ServerOp.submit gid stamp → gid ∉ s.ids := by
      intro gid stamp hop
      subst hop
      have hnd : (gid :: (goalIds rest ++ s.ids)).Nodup := by
        simpa [goalIds] using hnodup
      intro hm
      exact (List.nodup_cons.mp hnd).1 (by simp [hm])
    have hstep := serverInv_step s op h hfresh
    rw [show runOps s (op :: rest) = runOps (stepOp s op) rest from rfl]
    apply ih _ hstep
    rw [stepOp_ids]
    cases op with
    | submit gid stamp =>
      have hnd : (gid :: (goalIds rest ++ s.ids)).Nodup := by
        simpa [goalIds] using hnodup
      simpa [goalIds] using List.perm_middle.symm.nodup hnd
    | preempt tok => simpa [goalIds] using hnodup
    | accept => simpa [goalIds] using hnodup
    | succeed => simpa [goalIds] using hnodup
    | abort => simpa [goalIds] using hnodup
    | cancelCur => simpa [goalIds] using hnodup
    | regGoal b => simpa [goalIds] using hnodup
    | regPreempt b => simpa [goalIds] using hnodup

/-- Claim C1: over every sequence of operations from construction
(submissions through `internal_goal_callback`, deliveries through
`internal_preempt_callback`, `accept_new_goal` acceptances, status-setting
calls, and callback registrations, with transport-assigned distinct goal
ids), at most one goal handle has status `ACTIVE` or `PREEMPTING`; and
`accept_new_goal` cancels a still-active distinct current goal
(`PREEMPTED`) while marking the promoted goal accepted (`ACTIVE`). -/
theorem single_active_goal (ecb : Bool) (ops : List ServerOp)
    (hids : (goalIds ops).Nodup) :
    activeCount (runOps (initServer ecb) ops) ≤ 1 ∧
    (∀ c n, is_active (runOps (initServer ecb) ops) = true →
      (runOps (initServer ecb) ops).new_goal = true →
      (runOps (initServer ecb) ops).current_goal = some c →
      (runOps (initServer ecb) ops).next_goal = some n → c ≠ n →
      ((accept_new_goal (runOps (initServer ecb) ops)).state.handles c).status =
          GoalStatus.PREEMPTED ∧
        ((accept_new_goal (runOps (initServer ecb) ops)).state.handles n).status =
          GoalStatus.ACTIVE) := by
  have hinv : ServerInv (runOps (initServer ecb) ops) := by
    apply runOps_inv ops (initServer ecb)
    · exact ⟨List.nodup_nil, by intro i hi; simp [initServer] at hi⟩
    · simpa [initServer] using hids
  constructor
  · exact serverInv_activeCount _ hinv
  · intro c n hact hng hcur hnext hcn
    obtain ⟨-, -, -, -, -, hstatn, -, -, -, -, hcancel⟩ :=
      accept_spec (runOps (initServer ecb) ops) n hng hnext
    exact ⟨hcancel c hcur hcn hact, hstatn⟩

theorem single_active_goal_wit :
    (goalIds [ServerOp.submit 1 1, ServerOp.accept, ServerOp.submit 2 2,
        ServerOp.preempt 1, ServerOp.accept]).Nodup ∧
    activeCount (runOps (initServer true)
      [ServerOp.submit 1 1, ServerOp.accept, ServerOp.submit 2 2,
        ServerOp.preempt 1, ServerOp.accept]) ≤ 1 :=
  ⟨by decide, (single_active_goal true _ (by decide)).1⟩
